import Mathlib

/-!
Shallow embedding of the `gpu_lock` repository (two implementation variants:
the packaged, hardened one in `src/gpu_lock/gpu_lock.py`, modelled in
namespace `GpuLockSpec`, and the minimal flat-file one in `src/gpu_lock.py`,
modelled in namespace `GpuLockSpec.Min`).

Modelling conventions:
- Machine state is `St`: the map from device id to the content of the file
  `gpu_<uid>.json` in the lock directory, plus the two environment entries
  (`CUDA_VISIBLE_DEVICES`, kept as the parsed set of device-id strings that
  `_parse_visible_devices` would return, and `CUDA_DEVICE_ORDER`).  The lock
  directory itself (created with `exist_ok=True` by `_GPULock.__init__`) is
  not observed by any operation, so it is not tracked.
- The ambient process context is `Ctx`: the caller's user name and pid
  (`getpass.getuser()`, `os.getpid()`), the process table (`os.kill(pid, 0)`
  succeeds exactly on live pids), the GPUtil oracle (per device id, the pair
  `(load, memoryUtil)` as rationals, `none` when `GPUtil.getGPUs()` does not
  report that id), the current time `int(time.time())`, and the package
  version string.
- Python exceptions become the `PyErr` error type of an `Except` result;
  every stateful operation returns `Except PyErr alpha` together with the
  post-state (an exception does not roll back writes already performed).
  `except RuntimeError` handlers catch exactly the `PyErr.runtime` errors;
  `json.load` failures and missing dict keys are the non-runtime
  `valueError` and `keyError`.
- A lock file's content is `FileData`: either a well-formed record
  (`FileData.json`) or content on which `json.load` / the record's field
  lookups fail (`FileData.malformed`).
-/

namespace GpuLockSpec

/-- The on-disk Lock Record, the dict written by `_create_lock`.  The minimal
variant writes no `version` field; that field is `none` for its records. -/
structure LockRecord where
  user : String
  time : Nat
  uid : Nat
  owner : Nat
  version : Option String
deriving DecidableEq, Repr

/-- Content of a `gpu_<uid>.json` file: a record that parses with all the
fields the readers access, or anything else (malformed JSON or a dict missing
an accessed key), on which reading raises a non-RuntimeError exception. -/
inductive FileData where
  | json (r : LockRecord)
  | malformed
deriving DecidableEq, Repr

/-- The RuntimeError messages the package itself raises. -/
inductive RtErr where
  | busyHolder (user : String)
  | rogue
  | allBusy
  | insufficient
deriving DecidableEq, Repr

/-- Python exceptions relevant to the code: RuntimeError (the only class the
package raises and the only one its handlers catch), KeyError (missing env
var / missing GPUtil id), and ValueError (JSONDecodeError on a malformed
record). -/
inductive PyErr where
  | runtime (e : RtErr)
  | keyError
  | valueError
deriving DecidableEq, Repr

/-- Whether an `except RuntimeError` handler catches this exception. -/
def PyErr.isRuntime : PyErr → Bool
  | .runtime _ => true
  | _ => false

/-- Decidable equality of operation outcomes (not derived by core for
`Except`). -/
instance {α β : Type} [DecidableEq α] [DecidableEq β] : DecidableEq (Except α β) := fun x y =>
  match x, y with
  | .ok a, .ok b =>
      if h : a = b then isTrue (by rw [h]) else isFalse (fun hh => by cases hh; exact h rfl)
  | .error a, .error b =>
      if h : a = b then isTrue (by rw [h]) else isFalse (fun hh => by cases hh; exact h rfl)
  | .ok _, .error _ => isFalse (fun hh => by cases hh)
  | .error _, .ok _ => isFalse (fun hh => by cases hh)

/-- The 10% busy threshold: the source's literal `0.1`, as an exact
rational. -/
def busyThreshold : ℚ := mkRat 1 10

/-- Ambient process context: caller identity, process table, GPUtil oracle,
clock, and package version (the `version.py` module is not in the sources;
its value is an opaque string). -/
structure Ctx where
  user : String
  pid : Nat
  now : Nat
  version : String
  alive : Nat → Bool
  oracle : Nat → Option (ℚ × ℚ)

/-- Machine state: lock files by device id, the parsed
`CUDA_VISIBLE_DEVICES` set (`none` = variable unset), and
`CUDA_DEVICE_ORDER`. -/
structure St where
  files : Nat → Option FileData
  visible : Option (Finset String)
  deviceOrder : Option String

/-- `_GPULock.check_pid_alive`: `os.kill(pid, 0)` raises OSError exactly on
dead pids. -/
def check_pid_alive (c : Ctx) (pid : Nat) : Bool := c.alive pid

/-- `_GPULock._verify_gpu_not_busy` (hardened variant only): look `uid` up in
the dict built from `GPUtil.getGPUs()` (KeyError when absent) and raise
RuntimeError when `load > 0.1 and memutil > 0.1`. -/
def verify_gpu_not_busy (c : Ctx) (uid : Nat) : Except PyErr Unit :=
  match c.oracle uid with
  | none => .error .keyError
  | some lm =>
      if busyThreshold < lm.1 ∧ busyThreshold < lm.2 then .error (.runtime .rogue)
      else .ok ()

/-- Outcome of `_GPULock.check_lock_availability` (hardened variant).  The
source's `elif not check_pid_alive(owner)` / `else raise` pair is rendered as
`if alive then raise else fall through`.  The function performs no writes;
both renew branches and the no-record branch fall through to
`_verify_gpu_not_busy`. -/
def check_availability_result (c : Ctx) (uid : Nat) (s : St) : Except PyErr Unit :=
  match s.files uid with
  | some .malformed => .error .valueError
  | some (.json r) =>
      if r.owner = c.pid then verify_gpu_not_busy c uid
      else if check_pid_alive c r.owner then .error (.runtime (.busyHolder r.user))
      else verify_gpu_not_busy c uid
  | none => verify_gpu_not_busy c uid

/-- `_GPULock.check_lock_availability` as a stateful step: it only reads, so
the post-state is the input state. -/
def check_lock_availability (c : Ctx) (uid : Nat) (s : St) : Except PyErr Unit × St :=
  (check_availability_result c uid s, s)

/-- The record `_create_lock` serializes (hardened variant: with the
`version` field). -/
def newRecord (c : Ctx) (uid : Nat) : LockRecord :=
  { user := c.user, time := c.now, uid := uid, owner := c.pid, version := some c.version }

/-- `_GPULock._create_lock` (hardened variant): write the record file for
`uid` (the `chmod` touches only permissions, which no claim observes). -/
def create_lock (c : Ctx) (uid : Nat) (s : St) : St :=
  { s with files := Function.update s.files uid (some (.json (newRecord c uid))) }

/-- `_GPULock._release_lock`: delete the record file if it exists, else do
nothing. -/
def release_lock (uid : Nat) (s : St) : St :=
  if (s.files uid).isSome then { s with files := Function.update s.files uid none } else s

/-- `_GPULock._acquire_lock` (hardened variant): check availability (whose
exception propagates), delete any existing record file, create the new
record. -/
def acquire_lock (c : Ctx) (uid : Nat) (s : St) : Except PyErr Unit × St :=
  match check_lock_availability c uid s with
  | (.error e, s1) => (.error e, s1)
  | (.ok _, s1) =>
      let s2 := if (s1.files uid).isSome then { s1 with files := Function.update s1.files uid none } else s1
      (.ok (), create_lock c uid s2)

/-- `_GPULock._add_uid_visible_devices`: pin `CUDA_DEVICE_ORDER`, then
read-modify-write `CUDA_VISIBLE_DEVICES`; the KeyError from an unset
variable is caught and replaced by the singleton set. -/
def add_uid_visible_devices (uid : Nat) (s : St) : St :=
  match s.visible with
  | some v => { s with deviceOrder := some "PCI_BUS_ID", visible := some (insert (toString uid) v) }
  | none => { s with deviceOrder := some "PCI_BUS_ID", visible := some {toString uid} }

/-- `_GPULock._remove_uid_visible_devices`: parse the set (KeyError when the
variable is unset), call Python's `set.remove` (which raises KeyError when
the element is absent), write the result back.  Identical in both
variants. -/
def remove_uid_visible_devices (uid : Nat) (s : St) : Except PyErr Unit × St :=
  match s.visible with
  | none => (.error .keyError, s)
  | some v =>
      if toString uid ∈ v then (.ok (), { s with visible := some (v.erase (toString uid)) })
      else (.error .keyError, s)

/-- `_GPULock.__enter__` (hardened variant): acquire, then advertise the
device id; an exception in `_acquire_lock` propagates before the visibility
update. -/
def gpuLock_enter (c : Ctx) (uid : Nat) (s : St) : Except PyErr Unit × St :=
  match acquire_lock c uid s with
  | (.error e, s1) => (.error e, s1)
  | (.ok _, s1) => (.ok (), add_uid_visible_devices uid s1)

/-- `_GPULock.__exit__`: withdraw the device id from the visible set, then
release the lock file; an exception in the removal skips the release. -/
def gpuLock_exit (uid : Nat) (s : St) : Except PyErr Unit × St :=
  match remove_uid_visible_devices uid s with
  | (.error e, s1) => (.error e, s1)
  | (.ok _, s1) => (.ok (), release_lock uid s1)

/-- Loop body of `_MultiGPULock.__init__` (hardened variant): for each
candidate id, try `check_lock_availability` and append on success (no file is
written here — files are only created by `__enter__`); `break` once `n` locks
are collected; `except RuntimeError` swallows only runtime errors.  After the
loop, raise when fewer than `n` locks were collected. -/
def multiGPULock_init_loop (c : Ctx) (n : Nat) : List Nat → List Nat → St → Except PyErr (List Nat) × St
  | [], acc, s => if acc.length < n then (.error (.runtime .insufficient), s) else (.ok acc, s)
  | uid :: rest, acc, s =>
      match check_lock_availability c uid s with
      | (.ok _, s1) =>
          let acc1 := acc ++ [uid]
          if acc1.length = n then (.ok acc1, s1)
          else multiGPULock_init_loop c n rest acc1 s1
      | (.error e, s1) =>
          if e.isRuntime then multiGPULock_init_loop c n rest acc s1 else (.error e, s1)

/-- `_MultiGPULock.__init__` (hardened variant) over the pool
`range(n_system_gpus)`, returning the device ids of the collected locks. -/
def multiGPULock_init (c : Ctx) (n pool : Nat) (s : St) : Except PyErr (List Nat) × St :=
  multiGPULock_init_loop c n (List.range pool) [] s

/-- A lock handle returned by `lock_gpu`: a single `_GPULock` (identified by
its device id) or a `_MultiGPULock` (identified by its device-id list). -/
inductive Handle where
  | single (uid : Nat)
  | multi (uids : List Nat)
deriving DecidableEq, Repr

/-- The `n == 1` scan of `lock_gpu` (hardened variant): return the first
candidate whose availability check passes, swallowing RuntimeErrors; when
the pool is exhausted, raise the all-busy RuntimeError. -/
def lock_gpu_scan (c : Ctx) : List Nat → St → Except PyErr Nat × St
  | [], s => (.error (.runtime .allBusy), s)
  | uid :: rest, s =>
      match check_lock_availability c uid s with
      | (.ok _, s1) => (.ok uid, s1)
      | (.error e, s1) =>
          if e.isRuntime then lock_gpu_scan c rest s1 else (.error e, s1)

/-- `lock_gpu` (hardened variant): single-device scan when `n == 1`, else
delegate to `_MultiGPULock.__init__` (also for `n == 0`). -/
def lock_gpu (c : Ctx) (n pool : Nat) (s : St) : Except PyErr Handle × St :=
  if n = 1 then
    match lock_gpu_scan c (List.range pool) s with
    | (.ok uid, s1) => (.ok (.single uid), s1)
    | (.error e, s1) => (.error e, s1)
  else
    match multiGPULock_init c n pool s with
    | (.ok uids, s1) => (.ok (.multi uids), s1)
    | (.error e, s1) => (.error e, s1)

namespace Min

/-- Outcome of `_GPULock.check_lock_availability` in the minimal variant
(`src/gpu_lock.py`): an existing record is renewable when its `user` equals
the caller's user OR its `owner` equals the caller's pid; there is no
device-utilization verification step, so the no-record case and the renew
branches simply return. -/
def check_availability_result (c : Ctx) (uid : Nat) (s : St) : Except PyErr Unit :=
  match s.files uid with
  | some .malformed => .error .valueError
  | some (.json r) =>
      if r.user = c.user ∨ r.owner = c.pid then .ok ()
      else if check_pid_alive c r.owner then .error (.runtime (.busyHolder r.user))
      else .ok ()
  | none => .ok ()

/-- Minimal variant `check_lock_availability` as a stateful step (it only
reads). -/
def check_lock_availability (c : Ctx) (uid : Nat) (s : St) : Except PyErr Unit × St :=
  (check_availability_result c uid s, s)

/-- The record the minimal `_create_lock` serializes: no `version` field. -/
def newRecord (c : Ctx) (uid : Nat) : LockRecord :=
  { user := c.user, time := c.now, uid := uid, owner := c.pid, version := none }

/-- Minimal variant `_create_lock`. -/
def create_lock (c : Ctx) (uid : Nat) (s : St) : St :=
  { s with files := Function.update s.files uid (some (.json (Min.newRecord c uid))) }

/-- Minimal variant `_aquire_lock`: check, delete any existing record,
create. -/
def acquire_lock (c : Ctx) (uid : Nat) (s : St) : Except PyErr Unit × St :=
  match Min.check_lock_availability c uid s with
  | (.error e, s1) => (.error e, s1)
  | (.ok _, s1) =>
      let s2 := if (s1.files uid).isSome then { s1 with files := Function.update s1.files uid none } else s1
      (.ok (), Min.create_lock c uid s2)

/-- The `n == 1` scan of the minimal `lock_gpu`: unlike the hardened variant,
when the pool is exhausted the function falls off the loop and returns
`None` normally — it raises nothing. -/
def lock_gpu_scan (c : Ctx) : List Nat → St → Except PyErr (Option Nat) × St
  | [], s => (.ok none, s)
  | uid :: rest, s =>
      match Min.check_lock_availability c uid s with
      | (.ok _, s1) => (.ok (some uid), s1)
      | (.error e, s1) =>
          if e.isRuntime then Min.lock_gpu_scan c rest s1 else (.error e, s1)

/-- Loop of the minimal `_MultiGPULock.__init__` (same structure as the
hardened one, over the minimal availability check). -/
def multiGPULock_init_loop (c : Ctx) (n : Nat) : List Nat → List Nat → St → Except PyErr (List Nat) × St
  | [], acc, s => if acc.length < n then (.error (.runtime .insufficient), s) else (.ok acc, s)
  | uid :: rest, acc, s =>
      match Min.check_lock_availability c uid s with
      | (.ok _, s1) =>
          let acc1 := acc ++ [uid]
          if acc1.length = n then (.ok acc1, s1)
          else Min.multiGPULock_init_loop c n rest acc1 s1
      | (.error e, s1) =>
          if e.isRuntime then Min.multiGPULock_init_loop c n rest acc s1 else (.error e, s1)

/-- Minimal variant `_MultiGPULock.__init__`. -/
def multiGPULock_init (c : Ctx) (n pool : Nat) (s : St) : Except PyErr (List Nat) × St :=
  Min.multiGPULock_init_loop c n (List.range pool) [] s

/-- Minimal variant `lock_gpu`: returns `some` handle, or `none` — the
implicit Python `None` — when `n == 1` and every candidate is busy. -/
def lock_gpu (c : Ctx) (n pool : Nat) (s : St) : Except PyErr (Option Handle) × St :=
  if n = 1 then
    match Min.lock_gpu_scan c (List.range pool) s with
    | (.ok (some uid), s1) => (.ok (some (.single uid)), s1)
    | (.ok none, s1) => (.ok none, s1)
    | (.error e, s1) => (.error e, s1)
  else
    match Min.multiGPULock_init c n pool s with
    | (.ok uids, s1) => (.ok (some (.multi uids)), s1)
    | (.error e, s1) => (.error e, s1)

end Min

/-! Concrete contexts and states used by closed theorems. -/

/-- Oracle reporting every device idle. -/
def idleOracle : Nat → Option (ℚ × ℚ) := fun _ => some (mkRat 0 1, mkRat 0 1)

/-- Oracle reporting every device at 50% load and 50% memory utilization. -/
def busyOracle : Nat → Option (ℚ × ℚ) := fun _ => some (mkRat 1 2, mkRat 1 2)

/-- Empty lock directory. -/
def noFiles : Nat → Option FileData := fun _ => none

/-- Fresh machine: no lock files, both environment entries unset. -/
def emptySt : St := { files := noFiles, visible := none, deviceOrder := none }

/-- A record owned by the foreign user `bob` with the given owner pid. -/
def bobRec (uid own : Nat) : LockRecord :=
  { user := "bob", time := 0, uid := uid, owner := own, version := some "1.0" }

/-- A calling process of user `alice` with pid 7. -/
def aliceCtx (alive : Nat → Bool) (oracle : Nat → Option (ℚ × ℚ)) : Ctx :=
  { user := "alice", pid := 7, now := 5, version := "1.0", alive := alive, oracle := oracle }

/-- Caller `alice`, every pid alive, idle devices. -/
def cAllAlive : Ctx := aliceCtx (fun _ => true) idleOracle

/-- Caller `alice`, every other pid dead, idle devices. -/
def cAllDead : Ctx := aliceCtx (fun _ => false) idleOracle

/-- Caller `alice`, every other pid dead, devices 50% utilized. -/
def cAllDeadBusy : Ctx := aliceCtx (fun _ => false) busyOracle

/-- Caller `alice`, every pid alive, devices 50% utilized. -/
def cAllAliveBusy : Ctx := aliceCtx (fun _ => true) busyOracle

/-- State whose only lock file, for device 0, is `bob`'s record with owner
pid 42. -/
def sBusy1 : St := { emptySt with files := Function.update noFiles 0 (some (.json (bobRec 0 42))) }

/-- A record of the caller's own user `alice` but a different owner pid. -/
def rSameUser : LockRecord := { user := "alice", time := 0, uid := 0, owner := 42, version := none }

/-- State whose only lock file, for device 0, is `alice`'s record with the
foreign owner pid 42. -/
def sSameUser : St := { emptySt with files := Function.update noFiles 0 (some (.json rSameUser)) }

/-- State whose only lock file, for device 0, is malformed. -/
def sMal : St := { emptySt with files := Function.update noFiles 0 (some FileData.malformed) }

/-- State advertising only the device-id string 9. -/
def sVis9 : St := { emptySt with visible := some {"9"} }

/-- Context for the pool-of-4 scenario: foreign owners 100 and 200 are the
only live pids. -/
def c8x : Ctx := aliceCtx (fun p => p == 100 || p == 200) idleOracle

/-- State for the pool-of-4 scenario: devices 0 and 1 hold records of live
foreign pids 100 and 200, devices 2 and 3 are free. -/
def s8x : St :=
  { emptySt with
    files := Function.update (Function.update noFiles 0 (some (.json (bobRec 0 100)))) 1
      (some (.json (bobRec 1 200))) }

/-! Helper lemmas shared by the claim theorems. -/

/-- `_verify_gpu_not_busy` either passes or raises the RuntimeError about a
rogue user, provided the oracle reports the device id. -/
theorem verify_benign (c : Ctx) (u : Nat) (hor : (c.oracle u).isSome = true) :
    verify_gpu_not_busy c u = .ok () ∨ verify_gpu_not_busy c u = .error (.runtime .rogue) := by
  unfold verify_gpu_not_busy
  cases ho : c.oracle u with
  | none => rw [ho] at hor; simp at hor
  | some lm =>
      by_cases hb : busyThreshold < lm.1 ∧ busyThreshold < lm.2
      · simp [hb]
      · simp [hb]

/-- On a pool device with a parsable (or absent) record and an oracle entry,
the hardened availability check either passes or raises a RuntimeError. -/
theorem check_result_benign (c : Ctx) (s : St) (u : Nat)
    (hmal : s.files u ≠ some FileData.malformed) (hor : (c.oracle u).isSome = true) :
    check_availability_result c u s = .ok () ∨
      ∃ e, check_availability_result c u s = .error e ∧ e.isRuntime = true := by
  have hv : check_availability_result c u s = verify_gpu_not_busy c u ∨
      ∃ e, check_availability_result c u s = .error e ∧ e.isRuntime = true := by
    cases hf : s.files u with
    | none => exact Or.inl (by simp [check_availability_result, hf])
    | some fd =>
        cases fd with
        | malformed => exact absurd hf hmal
        | json r =>
            by_cases h1 : r.owner = c.pid
            · exact Or.inl (by simp [check_availability_result, hf, h1])
            · by_cases h2 : check_pid_alive c r.owner = true
              · have hres : check_availability_result c u s = .error (.runtime (.busyHolder r.user)) := by
                  simp [check_availability_result, hf, h1, h2]
                rw [hres]; exact Or.inr ⟨_, rfl, rfl⟩
              · exact Or.inl (by simp [check_availability_result, hf, h1, h2])
  rcases hv with hv | hv
  · rw [hv]
    rcases verify_benign c u hor with h | h
    · exact Or.inl h
    · exact Or.inr ⟨_, h, rfl⟩
  · exact Or.inr hv

/-- The device ids of a candidate list that the hardened availability check
accepts in state `s` (the check writes nothing, so acceptance is
per-device). -/
def freeIds (c : Ctx) (s : St) (l : List Nat) : List Nat :=
  l.filter fun u => decide ((check_lock_availability c u s).1 = .ok ())

/-- When fewer free ids remain in the candidate list than are still needed,
the `_MultiGPULock.__init__` loop ends by raising the insufficiency
RuntimeError and leaves the state untouched (it never writes a file). -/
theorem init_loop_insufficient (c : Ctx) (n : Nat) (s : St) :
    ∀ (l acc : List Nat),
      (∀ u ∈ l, s.files u ≠ some FileData.malformed ∧ (c.oracle u).isSome = true) →
      acc.length + (freeIds c s l).length < n →
      multiGPULock_init_loop c n l acc s = (.error (.runtime .insufficient), s) := by
  intro l
  induction l with
  | nil =>
      intro acc _ hlen
      simp only [freeIds, List.filter_nil, List.length_nil, Nat.add_zero] at hlen
      simp [multiGPULock_init_loop, hlen]
  | cons uid rest ih =>
      intro acc hcl hlen
      have hhd := hcl uid (List.mem_cons_self uid rest)
      have htl : ∀ u ∈ rest, s.files u ≠ some FileData.malformed ∧ (c.oracle u).isSome = true :=
        fun u hu => hcl u (List.mem_cons_of_mem _ hu)
      rcases check_result_benign c s uid hhd.1 hhd.2 with hok | ⟨e, herr, hrt⟩
      · have hp : (fun u => decide ((check_lock_availability c u s).1 = .ok ())) uid = true := by
          simp [check_lock_availability, hok]
        have hflt : freeIds c s (uid :: rest) = uid :: freeIds c s rest := by
          simp only [freeIds, List.filter_cons, hp, if_true]
        rw [hflt, List.length_cons] at hlen
        have hne : (acc ++ [uid]).length ≠ n := by
          simp only [List.length_append, List.length_cons, List.length_nil]
          omega
        simp only [multiGPULock_init_loop, check_lock_availability, hok]
        rw [if_neg hne]
        apply ih (acc ++ [uid]) htl
        simp only [List.length_append, List.length_cons, List.length_nil]
        omega
      · have hp : (fun u => decide ((check_lock_availability c u s).1 = .ok ())) uid = false := by
          simp [check_lock_availability, herr]
        have hflt : freeIds c s (uid :: rest) = freeIds c s rest := by
          simp only [freeIds, List.filter_cons, hp]
          simp
        rw [hflt] at hlen
        simp only [multiGPULock_init_loop, check_lock_availability, herr, hrt]
        simp only [if_true]
        exact ih acc htl hlen

/-- With `n = 0` the stop condition of the `_MultiGPULock.__init__` loop is
never met (it is checked only after an append), so the loop walks the whole
candidate list and collects every free id. -/
theorem init_loop_collect_zero (c : Ctx) (s : St) :
    ∀ (l acc : List Nat),
      (∀ u ∈ l, s.files u ≠ some FileData.malformed ∧ (c.oracle u).isSome = true) →
      multiGPULock_init_loop c 0 l acc s = (.ok (acc ++ freeIds c s l), s) := by
  intro l
  induction l with
  | nil =>
      intro acc _
      simp [multiGPULock_init_loop, freeIds]
  | cons uid rest ih =>
      intro acc hcl
      have hhd := hcl uid (List.mem_cons_self uid rest)
      have htl : ∀ u ∈ rest, s.files u ≠ some FileData.malformed ∧ (c.oracle u).isSome = true :=
        fun u hu => hcl u (List.mem_cons_of_mem _ hu)
      rcases check_result_benign c s uid hhd.1 hhd.2 with hok | ⟨e, herr, hrt⟩
      · have hp : (fun u => decide ((check_lock_availability c u s).1 = .ok ())) uid = true := by
          simp [check_lock_availability, hok]
        have hflt : freeIds c s (uid :: rest) = uid :: freeIds c s rest := by
          simp only [freeIds, List.filter_cons, hp, if_true]
        have hne : (acc ++ [uid]).length ≠ 0 := by
          simp [List.length_append]
        simp only [multiGPULock_init_loop, check_lock_availability, hok]
        rw [if_neg hne, ih (acc ++ [uid]) htl, hflt]
        simp
      · have hp : (fun u => decide ((check_lock_availability c u s).1 = .ok ())) uid = false := by
          simp [check_lock_availability, herr]
        have hflt : freeIds c s (uid :: rest) = freeIds c s rest := by
          simp only [freeIds, List.filter_cons, hp]
          simp
        simp only [multiGPULock_init_loop, check_lock_availability, herr, hrt]
        simp only [if_true]
        rw [ih acc htl, hflt]

/-- With `n = 0` the `_MultiGPULock.__init__` loop can never raise the
insufficiency RuntimeError, whatever the pool state: the final
`len(locks) < 0` test is false, and any escaping exception is a
non-RuntimeError from reading a record or the oracle. -/
theorem init_loop_zero_not_insufficient (c : Ctx) (s : St) :
    ∀ (l acc : List Nat),
      (multiGPULock_init_loop c 0 l acc s).1 ≠ .error (.runtime .insufficient) := by
  intro l
  induction l with
  | nil =>
      intro acc
      simp [multiGPULock_init_loop]
  | cons uid rest ih =>
      intro acc
      cases hr : check_availability_result c uid s with
      | ok u =>
          cases u
          have hne : (acc ++ [uid]).length ≠ 0 := by simp [List.length_append]
          simp only [multiGPULock_init_loop, check_lock_availability, hr]
          rw [if_neg hne]
          exact ih (acc ++ [uid])
      | error e =>
          cases hrt : e.isRuntime with
          | true =>
              simp only [multiGPULock_init_loop, check_lock_availability, hr, hrt]
              simp only [if_true]
              exact ih acc
          | false =>
              simp only [multiGPULock_init_loop, check_lock_availability, hr, hrt]
              simp only [Bool.false_eq_true, if_false]
              intro hcontra
              simp only [Except.error.injEq] at hcontra
              rw [hcontra] at hrt
              simp [PyErr.isRuntime] at hrt

/-- When the availability check passes, `_acquire_lock` deletes any existing
record file and writes the new record. -/
theorem acquire_lock_ok (c : Ctx) (uid : Nat) (s : St)
    (hr : check_availability_result c uid s = .ok ()) :
    acquire_lock c uid s =
      (.ok (), create_lock c uid
        (if (s.files uid).isSome then { s with files := Function.update s.files uid none }
         else s)) := by
  simp only [acquire_lock, check_lock_availability, hr]

/-- A successful `__enter__` leaves the caller's fresh record on disk for
`uid`, advertises `str(uid)` in the visible set, and touches no other
record file. -/
theorem enter_ok_state (c : Ctx) (uid : Nat) (s : St)
    (h : (gpuLock_enter c uid s).1 = .ok ()) :
    (gpuLock_enter c uid s).2.files uid = some (.json (newRecord c uid)) ∧
      ∃ v, (gpuLock_enter c uid s).2.visible = some v ∧ toString uid ∈ v := by
  cases hr : check_availability_result c uid s with
  | error e =>
      exfalso
      simp [gpuLock_enter, acquire_lock, check_lock_availability, hr] at h
  | ok u =>
      cases u
      have hen : (gpuLock_enter c uid s).2 =
          add_uid_visible_devices uid (create_lock c uid
            (if (s.files uid).isSome then { s with files := Function.update s.files uid none }
             else s)) := by
        simp only [gpuLock_enter, acquire_lock_ok c uid s hr]
      set sc := create_lock c uid
        (if (s.files uid).isSome then { s with files := Function.update s.files uid none }
         else s) with hsc
      have hfile : sc.files uid = some (.json (newRecord c uid)) := by
        simp [hsc, create_lock]
      rw [hen]
      cases hv : sc.visible with
      | none =>
          refine ⟨?_, {toString uid}, ?_, Finset.mem_singleton_self _⟩
          · simp only [add_uid_visible_devices, hv]
            exact hfile
          · simp only [add_uid_visible_devices, hv]
      | some v =>
          refine ⟨?_, insert (toString uid) v, ?_, Finset.mem_insert_self _ _⟩
          · simp only [add_uid_visible_devices, hv]
            exact hfile
          · simp only [add_uid_visible_devices, hv]

/-! Claim theorems. -/

/-- Claim C1, counterexample to the claim as stated: in the minimal variant,
a well-formed record whose owner pid 42 differs from the caller's pid 7 and
is alive does NOT make `check_lock_availability` fail when the record's user
equals the caller's user — the same-user branch renews it instead. -/
theorem C1_counterexample :
    sSameUser.files 0 = some (.json rSameUser) ∧ rSameUser.owner ≠ cAllAlive.pid ∧
    cAllAlive.alive rSameUser.owner = true ∧
    (Min.check_lock_availability cAllAlive 0 sSameUser).1 = .ok () := by decide

/-- Claim C1 (amended): a well-formed record with a live owner pid different
from the caller's makes the hardened `check_lock_availability` — and hence
`_acquire_lock` — fail with the ResourceBusy RuntimeError carrying the
holder's user, leaving the whole state (in particular the record file)
unmodified; the minimal variant does the same provided additionally the
record's user differs from the caller's user. -/
theorem C1_busy_foreign_live (c : Ctx) (uid : Nat) (s : St) (r : LockRecord)
    (hf : s.files uid = some (.json r)) (hown : r.owner ≠ c.pid)
    (hal : c.alive r.owner = true) :
    check_lock_availability c uid s = (.error (.runtime (.busyHolder r.user)), s) ∧
    acquire_lock c uid s = (.error (.runtime (.busyHolder r.user)), s) ∧
    (r.user ≠ c.user →
      Min.check_lock_availability c uid s = (.error (.runtime (.busyHolder r.user)), s)) := by
  have hres : check_availability_result c uid s = .error (.runtime (.busyHolder r.user)) := by
    simp [check_availability_result, hf, hown, check_pid_alive, hal]
  refine ⟨?_, ?_, ?_⟩
  · simp [check_lock_availability, hres]
  · simp [acquire_lock, check_lock_availability, hres]
  · intro huser
    have hcond : ¬(r.user = c.user ∨ r.owner = c.pid) := by
      rintro (h | h)
      · exact huser h
      · exact hown h
    have hmin : Min.check_availability_result c uid s = .error (.runtime (.busyHolder r.user)) := by
      simp [Min.check_availability_result, hf, hcond, check_pid_alive, hal]
    simp [Min.check_lock_availability, hmin]

/-- Claim C1 witness: a record held by live foreign pid 42 of foreign user
`bob` blocks device 0 in both variants. -/
theorem C1_busy_foreign_live_witness :
    (sBusy1.files 0 = some (.json (bobRec 0 42)) ∧ (bobRec 0 42).owner ≠ cAllAlive.pid ∧
      cAllAlive.alive (bobRec 0 42).owner = true ∧ (bobRec 0 42).user ≠ cAllAlive.user) ∧
    check_lock_availability cAllAlive 0 sBusy1 = (.error (.runtime (.busyHolder "bob")), sBusy1) ∧
    Min.check_lock_availability cAllAlive 0 sBusy1 =
      (.error (.runtime (.busyHolder "bob")), sBusy1) := by
  refine ⟨by decide, ?_, ?_⟩
  · exact (C1_busy_foreign_live cAllAlive 0 sBusy1 (bobRec 0 42)
      (by decide) (by decide) (by decide)).1
  · exact (C1_busy_foreign_live cAllAlive 0 sBusy1 (bobRec 0 42)
      (by decide) (by decide) (by decide)).2.2 (by decide)

/-- Claim C2: with a pool of one device held by a live foreign pid, the
hardened `lock_gpu` with count 1 raises the all-busy RuntimeError, but the
minimal variant's `lock_gpu` falls off its scan loop and returns Python's
`None` normally, contradicting its own return annotation — the divergence
behind the code_bug verdict. -/
theorem C2_allbusy_divergence :
    (check_lock_availability cAllAlive 0 sBusy1).1 = .error (.runtime (.busyHolder "bob")) ∧
    (lock_gpu cAllAlive 1 1 sBusy1).1 = .error (.runtime .allBusy) ∧
    (Min.lock_gpu cAllAlive 1 1 sBusy1).1 = .ok none := by decide

/-- Claim C3, counterexample to the claim as stated: with device 0's record
file malformed, zero pool devices are free and one is requested, yet
`_MultiGPULock.__init__` propagates the JSON parse error (CorruptState)
rather than failing with the insufficiency RuntimeError. -/
theorem C3_counterexample :
    sMal.files 0 = some FileData.malformed ∧
    (freeIds cAllAlive sMal (List.range 1)).length = 0 ∧
    (multiGPULock_init cAllAlive 1 1 sMal).1 = .error .valueError ∧
    (multiGPULock_init cAllAlive 1 1 sMal).1 ≠ .error (.runtime .insufficient) := by decide

/-- Claim C3 (amended): provided every existing record in the pool parses
and the oracle reports every pool device id, requesting `n` devices when
fewer than `n` pool devices pass the availability check makes
`_MultiGPULock.__init__` fail with the insufficiency RuntimeError and leaves
the state exactly unchanged — net zero record files are created (indeed the
constructor never writes any). -/
theorem C3_insufficient (c : Ctx) (n pool : Nat) (s : St)
    (hclean : ∀ u, u < pool → s.files u ≠ some FileData.malformed ∧ (c.oracle u).isSome = true)
    (hk : (freeIds c s (List.range pool)).length < n) :
    multiGPULock_init c n pool s = (.error (.runtime .insufficient), s) := by
  unfold multiGPULock_init
  apply init_loop_insufficient
  · intro u hu
    exact hclean u (List.mem_range.mp hu)
  · simpa using hk

/-- Claim C3 witness: one device requested from a pool of one device held by
a live foreign pid. -/
theorem C3_insufficient_witness :
    (∀ u, u < 1 → sBusy1.files u ≠ some FileData.malformed ∧ (cAllAlive.oracle u).isSome = true) ∧
    (freeIds cAllAlive sBusy1 (List.range 1)).length < 1 ∧
    multiGPULock_init cAllAlive 1 1 sBusy1 = (.error (.runtime .insufficient), sBusy1) :=
  ⟨by decide, by decide, C3_insufficient cAllAlive 1 1 sBusy1 (by decide) (by decide)⟩

/-- Claim C4: after a successful scoped acquisition (`__enter__`: acquire
then visibility-add), scoped release (`__exit__`: visibility-remove then
release) succeeds, leaves no record file for the device id, and leaves its
id string absent from the visible-device set. -/
theorem C4_acquire_release_clean (c : Ctx) (uid : Nat) (s : St)
    (h : (gpuLock_enter c uid s).1 = .ok ()) :
    (gpuLock_exit uid (gpuLock_enter c uid s).2).1 = .ok () ∧
    (gpuLock_exit uid (gpuLock_enter c uid s).2).2.files uid = none ∧
    ∃ v, (gpuLock_exit uid (gpuLock_enter c uid s).2).2.visible = some v ∧
      toString uid ∉ v := by
  obtain ⟨hfile, v, hv, hmem⟩ := enter_ok_state c uid s h
  set s1 := (gpuLock_enter c uid s).2 with hs1
  have hrm : remove_uid_visible_devices uid s1 =
      (.ok (), { s1 with visible := some (v.erase (toString uid)) }) := by
    simp [remove_uid_visible_devices, hv, hmem]
  have hfile1 : ({ s1 with visible := some (v.erase (toString uid)) } : St).files uid
      = some (.json (newRecord c uid)) := hfile
  have hsome : (({ s1 with visible := some (v.erase (toString uid)) } : St).files uid).isSome
      = true := by rw [hfile1]; rfl
  have hex : gpuLock_exit uid s1 =
      (.ok (), { s1 with visible := some (v.erase (toString uid)),
                         files := Function.update s1.files uid none }) := by
    simp only [gpuLock_exit, hrm]
    rw [release_lock, if_pos hsome]
  refine ⟨?_, ?_, ⟨v.erase (toString uid), ?_, Finset.not_mem_erase _ _⟩⟩
  · rw [hex]
  · rw [hex]
    simp
  · rw [hex]

/-- Claim C4 witness: acquiring then releasing device 5 on a fresh machine. -/
theorem C4_acquire_release_clean_witness :
    (gpuLock_enter cAllAlive 5 emptySt).1 = .ok () ∧
    (gpuLock_exit 5 (gpuLock_enter cAllAlive 5 emptySt).2).1 = .ok () ∧
    (gpuLock_exit 5 (gpuLock_enter cAllAlive 5 emptySt).2).2.files 5 = none := by
  have h := C4_acquire_release_clean cAllAlive 5 emptySt (by decide)
  exact ⟨by decide, h.1, h.2.1⟩

/-- Claim C5, counterexample to the claim as stated: in the hardened
variant, a record owned by a dead pid does NOT guarantee a successful
acquisition — with the oracle reporting 50% load and memory utilization,
`_acquire_lock` fails with the rogue-user RuntimeError and the stale record
survives. -/
theorem C5_counterexample :
    sBusy1.files 0 = some (.json (bobRec 0 42)) ∧
    cAllDeadBusy.alive (bobRec 0 42).owner = false ∧
    (acquire_lock cAllDeadBusy 0 sBusy1).1 = .error (.runtime .rogue) ∧
    (acquire_lock cAllDeadBusy 0 sBusy1).2.files 0 = some (.json (bobRec 0 42)) := by decide

/-- Claim C5 (amended): acquiring a device whose record is owned by a dead
pid succeeds and overwrites the record with the caller's pid as owner and
the current acquisition time — in the hardened variant provided the oracle
reports the device and not both utilizations exceed the 10% threshold, and
unconditionally in the minimal variant; no other device's record file is
touched. -/
theorem C5_stale_reclaim (c : Ctx) (uid : Nat) (s : St) (r : LockRecord) (l m : ℚ)
    (hf : s.files uid = some (.json r)) (hdead : c.alive r.owner = false) :
    (c.oracle uid = some (l, m) → ¬(busyThreshold < l ∧ busyThreshold < m) →
      (acquire_lock c uid s).1 = .ok () ∧
      (acquire_lock c uid s).2.files uid = some (.json (newRecord c uid)) ∧
      (∀ u, u ≠ uid → (acquire_lock c uid s).2.files u = s.files u)) ∧
    ((Min.acquire_lock c uid s).1 = .ok () ∧
      (Min.acquire_lock c uid s).2.files uid = some (.json (Min.newRecord c uid)) ∧
      (∀ u, u ≠ uid → (Min.acquire_lock c uid s).2.files u = s.files u)) := by
  have hsome : (s.files uid).isSome = true := by rw [hf]; rfl
  constructor
  · intro hor hno
    have hver : verify_gpu_not_busy c uid = .ok () := by
      simp [verify_gpu_not_busy, hor, hno]
    have hres : check_availability_result c uid s = .ok () := by
      by_cases h1 : r.owner = c.pid
      · simp [check_availability_result, hf, h1, hver]
      · simp [check_availability_result, hf, h1, check_pid_alive, hdead, hver]
    rw [acquire_lock_ok c uid s hres]
    refine ⟨rfl, ?_, ?_⟩
    · simp [create_lock]
    · intro u hu
      simp [create_lock, hsome, Function.update_noteq hu]
  · have hres : Min.check_availability_result c uid s = .ok () := by
      by_cases h1 : r.user = c.user ∨ r.owner = c.pid
      · simp [Min.check_availability_result, hf, h1]
      · simp [Min.check_availability_result, hf, h1, check_pid_alive, hdead]
    have hmin : Min.acquire_lock c uid s =
        (.ok (), Min.create_lock c uid
          (if (s.files uid).isSome then { s with files := Function.update s.files uid none }
           else s)) := by
      simp only [Min.acquire_lock, Min.check_lock_availability, hres]
    rw [hmin]
    refine ⟨rfl, ?_, ?_⟩
    · simp [Min.create_lock]
    · intro u hu
      simp [Min.create_lock, hsome, Function.update_noteq hu]

/-- Claim C5 witness: reclaiming device 0 from dead pid 42 with an idle
oracle, in both variants. -/
theorem C5_stale_reclaim_witness :
    (sBusy1.files 0 = some (.json (bobRec 0 42)) ∧
      cAllDead.alive (bobRec 0 42).owner = false ∧
      cAllDead.oracle 0 = some (mkRat 0 1, mkRat 0 1) ∧
      ¬(busyThreshold < mkRat 0 1 ∧ busyThreshold < mkRat 0 1)) ∧
    (acquire_lock cAllDead 0 sBusy1).1 = .ok () ∧
    (acquire_lock cAllDead 0 sBusy1).2.files 0 = some (.json (newRecord cAllDead 0)) ∧
    (Min.acquire_lock cAllDead 0 sBusy1).1 = .ok () := by
  have h := C5_stale_reclaim cAllDead 0 sBusy1 (bobRec 0 42) (mkRat 0 1) (mkRat 0 1)
    (by decide) (by decide)
  have h1 := h.1 (by decide) (by decide)
  exact ⟨⟨by decide, by decide, by decide, by decide⟩, h1.1, h1.2.1, h.2.1⟩

/-- Claim C6, counterexample to the claim as stated: with the visibility
channel entirely unset, `_remove_uid_visible_devices` raises KeyError — it
is not a harmless no-op. -/
theorem C6_counterexample :
    emptySt.visible = none ∧
    (remove_uid_visible_devices 0 emptySt).1 = .error .keyError := by decide

/-- Claim C6 (amended): removing a device id that is absent from the
visible-device set, or removing when the channel is unset, raises KeyError
(Python's `set.remove`, not `discard`; `os.environ` lookup of an unset
variable) and leaves the state unchanged. -/
theorem C6_remove_absent_raises (uid : Nat) (s : St)
    (h : s.visible = none ∨ ∃ v, s.visible = some v ∧ toString uid ∉ v) :
    remove_uid_visible_devices uid s = (.error .keyError, s) := by
  rcases h with h | ⟨v, hv, hnm⟩
  · simp [remove_uid_visible_devices, h]
  · simp [remove_uid_visible_devices, hv, hnm]

/-- Claim C6 witness: removing device 0 when only the id string 9 is
advertised raises KeyError. -/
theorem C6_remove_absent_raises_witness :
    (sVis9.visible = some {"9"} ∧ toString 0 ∉ ({"9"} : Finset String)) ∧
    remove_uid_visible_devices 0 sVis9 = (.error .keyError, sVis9) :=
  ⟨⟨rfl, by decide⟩, C6_remove_absent_raises 0 sVis9 (Or.inr ⟨{"9"}, rfl, by decide⟩)⟩

/-- Claim C7: in the hardened variant, whenever the record-based decision
path completes without raising (no record, own record, or dead owner), the
outcome of `check_lock_availability` is exactly that of the unconditional
`_verify_gpu_not_busy` oracle check, which fails with the rogue-user
RuntimeError precisely when both the load and the memory-utilization
fraction reported for the device exceed the 10% threshold. -/
theorem C7_oracle_check (c : Ctx) (uid : Nat) (s : St) (l m : ℚ)
    (hor : c.oracle uid = some (l, m))
    (hrec : s.files uid = none ∨
      ∃ r, s.files uid = some (.json r) ∧ (r.owner = c.pid ∨ c.alive r.owner = false)) :
    (check_lock_availability c uid s).1 = verify_gpu_not_busy c uid ∧
    ((check_lock_availability c uid s).1 = .error (.runtime .rogue) ↔
      (busyThreshold < l ∧ busyThreshold < m)) := by
  have h1 : check_availability_result c uid s = verify_gpu_not_busy c uid := by
    rcases hrec with hf | ⟨r, hf, hcase⟩
    · simp [check_availability_result, hf]
    · rcases hcase with hown | hdead
      · simp [check_availability_result, hf, hown]
      · by_cases h2 : r.owner = c.pid
        · simp [check_availability_result, hf, h2]
        · simp [check_availability_result, hf, h2, check_pid_alive, hdead]
  constructor
  · exact h1
  · rw [show (check_lock_availability c uid s).1 = check_availability_result c uid s from rfl, h1]
    by_cases hb : busyThreshold < l ∧ busyThreshold < m
    · simp [verify_gpu_not_busy, hor, hb]
    · simp [verify_gpu_not_busy, hor, hb]

/-- Claim C7 witness: with no record for device 0 and the oracle reporting
50% load and memory utilization, the hardened check fails with the
rogue-user RuntimeError. -/
theorem C7_oracle_check_witness :
    (cAllAliveBusy.oracle 0 = some (mkRat 1 2, mkRat 1 2) ∧ emptySt.files 0 = none) ∧
    (check_lock_availability cAllAliveBusy 0 emptySt).1 = verify_gpu_not_busy cAllAliveBusy 0 ∧
    (check_lock_availability cAllAliveBusy 0 emptySt).1 = .error (.runtime .rogue) := by
  have h := C7_oracle_check cAllAliveBusy 0 emptySt (mkRat 1 2) (mkRat 1 2)
    (by decide) (Or.inl (by decide))
  exact ⟨⟨by decide, by decide⟩, h.1, h.2.mpr (by decide)⟩

/-- Claim C8: pool of 4 devices, devices 0 and 1 held by live foreign pids
100 and 200, devices 2 and 3 free: `lock_gpu` with count 1 returns the lock
on device 2, and entering it makes the visible-device set exactly the
singleton of the id string 2 while writing the caller's record for
device 2. -/
theorem C8_scenario :
    (lock_gpu c8x 1 4 s8x).1 = .ok (.single 2) ∧
    (gpuLock_enter c8x 2 s8x).1 = .ok () ∧
    (gpuLock_enter c8x 2 s8x).2.visible = some {"2"} ∧
    (gpuLock_enter c8x 2 s8x).2.files 2 = some (.json (newRecord c8x 2)) := by decide

/-- Claim C9: `check_lock_availability` is read-only in both variants —
whatever it returns or raises, the post-state (every lock file and the
visible-device set) is the input state. -/
theorem C9_check_readonly (c : Ctx) (uid : Nat) (s : St) :
    (check_lock_availability c uid s).2 = s ∧ (Min.check_lock_availability c uid s).2 = s :=
  ⟨rfl, rfl⟩

/-- Claim C10: `lock_gpu` with count 0 takes the multi-device path, whose
stop condition (collected length equals 0) is tested only after an append
and so never fires: it never fails with the insufficiency RuntimeError, and
on a pool whose records parse and whose devices the oracle reports it
returns a multi-lock collecting every available device id of the pool. -/
theorem C10_zero_count :
    (∀ (c : Ctx) (pool : Nat) (s : St),
      (lock_gpu c 0 pool s).1 ≠ .error (.runtime .insufficient)) ∧
    (∀ (c : Ctx) (pool : Nat) (s : St),
      (∀ u, u < pool → s.files u ≠ some FileData.malformed ∧ (c.oracle u).isSome = true) →
      lock_gpu c 0 pool s = (.ok (.multi (freeIds c s (List.range pool))), s)) := by
  constructor
  · intro c pool s hco
    apply init_loop_zero_not_insufficient c s (List.range pool) []
    revert hco
    simp only [lock_gpu]
    rw [if_neg (by decide : ¬(0 = 1))]
    cases hm : multiGPULock_init c 0 pool s with
    | mk res st =>
        cases res with
        | ok uids =>
            intro hco
            simp at hco
        | error e =>
            intro hco
            have hloop : multiGPULock_init_loop c 0 (List.range pool) [] s = (.error e, st) := hm
            rw [hloop]
            simpa using hco
  · intro c pool s hclean
    have hm : multiGPULock_init c 0 pool s = (.ok (freeIds c s (List.range pool)), s) := by
      unfold multiGPULock_init
      rw [init_loop_collect_zero c s (List.range pool) []
        (fun u hu => hclean u (List.mem_range.mp hu))]
      simp
    simp only [lock_gpu]
    rw [if_neg (by decide : ¬(0 = 1)), hm]

/-- Claim C10 witness: count 0 over a fresh pool of two devices collects
both of them. -/
theorem C10_zero_count_witness :
    (∀ u, u < 2 → emptySt.files u ≠ some FileData.malformed ∧
      (cAllAlive.oracle u).isSome = true) ∧
    freeIds cAllAlive emptySt (List.range 2) = [0, 1] ∧
    lock_gpu cAllAlive 0 2 emptySt =
      (.ok (.multi (freeIds cAllAlive emptySt (List.range 2))), emptySt) :=
  ⟨by decide, by decide, C10_zero_count.2 cAllAlive 2 emptySt (by decide)⟩

end GpuLockSpec
